import Mathlib

/-!
# Verification of the `crawler` repository

Shallow embedding of the core data model and algorithms of the crawler:
the recursive CSS-selector predicate engine (`src/selector.rs`), the
extraction / positional-alignment logic of the spider (`src/spider.rs`),
the metrics collector and snapshot derivation (`src/metrics/collector.rs`),
the processing stage of the crawler engine and its state machine
(`src/crawler.rs`), and the CSV output sink (`src/output/csv.rs`).

Machine integers (`u64` counters) are modelled as `Nat` (the counters only
ever increase by 1 per observed event, far from overflow); `f64`-derived
rates are modelled as `ℚ`; strings as Lean `String` (with helper functions
mirroring the Rust `str` operations used by the source).
-/

namespace Crawler

/-! ## Selector engine (`src/selector.rs`) -/

/-- Embeds `enum CssSelector` from `src/selector.rs` (lines 8-38): a
recursive, declarative definition of a CSS selector. -/
inductive CssSelector where
  | Tag (name : String)
  | Class (name : String)
  | Id (name : String)
  | Attribute (key : String) (value : Option String)
  | And (selectors : List CssSelector)
  | Or (selectors : List CssSelector)
  | Descendant (ancestor descendant : CssSelector)
  | Child (parent child : CssSelector)
deriving Repr

/-- The data of one document node: its tag name (`None` for text/comment
nodes, mirroring `select::node::Node::name`) and its attribute list. -/
structure NodeData where
  name : Option String
  attrs : List (String × String)
deriving Repr, DecidableEq

/-- Attribute lookup, mirroring `Node::attr` (first match wins; the parser
keeps attribute keys unique). -/
def NodeData.attr (n : NodeData) (key : String) : Option String :=
  n.attrs.lookup key

/-- Splits a character list on whitespace, dropping empty tokens: the
semantics of Rust `str::split_whitespace` used at `src/selector.rs:84`. -/
def splitWsAux : List Char → List Char → List (List Char)
  | [], acc => if acc = [] then [] else [acc.reverse]
  | c :: rest, acc =>
      if c.isWhitespace then
        if acc = [] then splitWsAux rest []
        else acc.reverse :: splitWsAux rest []
      else splitWsAux rest (c :: acc)

/-- `str::split_whitespace` on a string, as a list of tokens. -/
def splitWs (s : String) : List (List Char) :=
  splitWsAux s.data []

mutual

/-- Embeds `CssSelector::selMatches` (`src/selector.rs` lines 79-113).  A node
is given as its own data together with its chain of ancestors, listed from
the immediate parent upward (so the parent of `(n, p :: rest)` is
`(p, rest)`); walking `node.parent()` is walking this list. -/
def selMatches : CssSelector → NodeData → List NodeData → Bool
  | .Tag t, n, _ => n.name == some t
  | .Class c, n, _ =>
      match n.attr "class" with
      | some classes => (splitWs classes).contains c.data
      | none => false
  | .Id i, n, _ => n.attr "id" == some i
  | .Attribute k v, n, _ =>
      match v with
      | some v => n.attr k == some v
      | none => (n.attr k).isSome
  | .And ss, n, anc => selMatchesAll ss n anc
  | .Or ss, n, anc => selMatchesAny ss n anc
  | .Descendant a d, n, anc => selMatches d n anc && ancestorMatch a anc
  | .Child p c, n, anc =>
      selMatches c n anc &&
        (match anc with
         | [] => false
         | q :: rest => selMatches p q rest)
termination_by s _ anc => (sizeOf s, anc.length)

/-- `selectors.iter().all(...)` over sub-selectors (`src/selector.rs:91`). -/
def selMatchesAll : List CssSelector → NodeData → List NodeData → Bool
  | [], _, _ => true
  | s :: rest, n, anc => selMatches s n anc && selMatchesAll rest n anc
termination_by ss _ anc => (sizeOf ss, anc.length)

/-- `selectors.iter().any(...)` over sub-selectors (`src/selector.rs:92`). -/
def selMatchesAny : List CssSelector → NodeData → List NodeData → Bool
  | [], _, _ => false
  | s :: rest, n, anc => selMatches s n anc || selMatchesAny rest n anc
termination_by ss _ anc => (sizeOf ss, anc.length)

/-- The parent-chain walk of the `Descendant` arm
(`src/selector.rs` lines 100-107): starting from the node's parent, searches
for an ancestor matching the given selector, short-circuiting on the first
match; the node itself is never visited. -/
def ancestorMatch : CssSelector → List NodeData → Bool
  | _, [] => false
  | s, p :: rest => selMatches s p rest || ancestorMatch s rest
termination_by s anc => (sizeOf s, anc.length)

end

/-! ## Error taxonomy (`src/error.rs`) -/

/-- The crate's error enum.  `src/error.rs` itself is not among the provided
sources; the variants are those constructed across `src/`
(`Error::Internal`, `Error::Extraction`, `Error::Config`,
`Error::Validation`, `Error::Database`) together with the spec's taxonomy
entry `FetchError` (§7).  Payloads are reduced to message strings. -/
inductive Error where
  | Config (msg : String)
  | Validation (msg : String)
  | Fetch (msg : String)
  | Extraction (msg : String)
  | Database (msg : String)
  | Internal (msg : String)
deriving Repr, DecidableEq

/-- Whether an error is the per-URL fetch-failure variant of the taxonomy. -/
def Error.isFetch : Error → Bool
  | .Fetch _ => true
  | _ => false

/-! ## Spider: selector-string handling (`src/spider.rs`) -/

/-- Embeds `enum ExtractionType` (`src/spider.rs:15-19`). -/
inductive ExtractionType where
  | Text
  | Attribute (name : String)
  | Html
deriving Repr, DecidableEq

/-- Embeds `struct ExtractionRule` (`src/spider.rs:22-25`). -/
structure ExtractionRule where
  selector : String
  extract : ExtractionType
deriving Repr, DecidableEq

/-- Rust `str::contains(':')` as used at `src/spider.rs:82` and `:132`. -/
def containsColon (s : String) : Bool :=
  s.data.contains ':'

/-- Helper for `split_once(':')`: the characters after the first colon,
`none` when there is no colon. -/
def afterColonAux : List Char → Option (List Char)
  | [] => none
  | c :: rest => if c = ':' then some rest else afterColonAux rest

/-- `s.split_once(':').map(|p| p.1)` (`src/spider.rs:147`). -/
def afterColon (s : String) : Option String :=
  (afterColonAux s.data).map String.mk

/-- Query construction of `extract_data` (`src/spider.rs:82-86`) and of the
root query (`src/spider.rs:132-136`): the default query-language tag
`css:` is prepended exactly when the string contains no colon. -/
def toQuery (s : String) : String :=
  if containsColon s then s else "css:" ++ s

/-- The rule selector as used in root mode (`src/spider.rs:147`):
`rule.selector.split_once(':').map(|s| s.1).unwrap_or(&rule.selector)` —
everything up to and including the first colon is stripped; a string with
no colon passes unchanged. -/
def strippedSelector (s : String) : String :=
  (afterColon s).getD s

/-! ## Spider: single-item extraction (`src/spider.rs:71-101`) -/

/-- An extracted item: an ordered field → string mapping
(`serde_json::Map` with string values; the spider only ever inserts
`json!(val)` of a `String`). -/
abbrev Item := List (String × String)

/-- Embeds `GenericSpider::extract_data` (`src/spider.rs:71-101`).  The
external `ChadSelect::select` engine is abstracted as a function `sel`
from query string to result string (an empty string is "no match", the
`val.is_empty()` test of line 90); `rules` is the `extraction_rules` map in
its iteration order.  A field is inserted exactly when its rule's query
result is non-empty; if no insertion happened (`found_data == false`) the
result is `Error::Extraction("No data found for item")`. -/
def extract_data (sel : String → String) (rules : List (String × ExtractionRule)) :
    Except Error Item :=
  let item := rules.foldl
    (fun item fr =>
      let val := sel (toQuery fr.2.selector)
      if val ≠ "" then item ++ [(fr.1, val)] else item)
    ([] : Item)
  if item ≠ [] then .ok item else .error (.Extraction "No data found for item")

/-! ## Spider: fetch phase (`src/spider.rs:114-124`) -/

/-- The outcome of one HTTP request attempt: either the transport fails
(`reqwest::Error`, reduced to its message) or a response with a status code
and a body arrives. -/
inductive FetchOutcome where
  | transportFail (msg : String)
  | response (status : Nat) (body : String)
deriving Repr, DecidableEq

/-- `StatusCode::is_success`: the status is in the 2xx range. -/
def isSuccessStatus (status : Nat) : Bool :=
  200 ≤ status && status < 300

/-- The message of the `Internal` error built at `src/spider.rs:120`
(`format!("HTTP error: {}", status)`; `http::StatusCode` displays the
numeric code followed by its canonical reason — we keep the numeric part,
immaterial to every claim, which only inspects the variant). -/
def httpErrorMsg (status : Nat) : String :=
  "HTTP error: " ++ toString status

/-- The `From<reqwest::Error>` conversion applied by `?` at
`src/spider.rs:117` and `:123`.  Modelled from the spec: the conversion
lives in `src/error.rs`, which is missing from the provided sources; the
spec's error taxonomy (§7) assigns transport failures to `FetchError`. -/
def reqwestError (msg : String) : Error :=
  .Fetch msg

/-- The fetch phase of `GenericSpider::scrape` (`src/spider.rs:114-124`):
a single straight-line `client.get(url).send()` call (no loop, no retry)
followed by the status check; returns the body on a 2xx response, the
converted transport error on a send failure, and
`Error::Internal("HTTP error: ...")` on a non-success status. -/
def scrapeFetch : FetchOutcome → Except Error String
  | .transportFail msg => .error (reqwestError msg)
  | .response status body =>
      if isSuccessStatus status then .ok body
      else .error (.Internal (httpErrorMsg status))

/-- The fetch phase run against a transport, given as the sequence of
outcomes successive attempts would observe; the pair returned is the fetch
result together with the number of attempts issued.  The source performs
exactly one `send` (`src/spider.rs:117`), so only `attempts 0` is consumed
and the count is 1. -/
def scrapeFetchOn (attempts : Nat → FetchOutcome) : Except Error String × Nat :=
  (scrapeFetch (attempts 0), 1)

/-- `GenericSpider::scrape` in single-item mode (`root_selector == None`):
the fetch phase, then the `else` branch at `src/spider.rs:176-181`:
`if let Ok(item) = self.extract_data(&cs, 0)` pushes the item and silently
discards the error; the function ends with `Ok((items, vec![]))`. -/
def scrapeSingle (outcome : FetchOutcome) (sel : String → String)
    (rules : List (String × ExtractionRule)) :
    Except Error (List Item × List String) :=
  match scrapeFetch outcome with
  | .error e => .error e
  | .ok _ =>
      match extract_data sel rules with
      | .ok item => .ok ([item], [])
      | .error _ => .ok ([], [])

/-! ## Spider: root-mode positional alignment (`src/spider.rs:131-175`) -/

/-- Per-field queries in root mode (`src/spider.rs:146-157`): for each rule
the combined query is the root query, a space, and the stripped rule
selector; `queryFn` abstracts `ChadSelect::query`, returning the ordered
sequence of string results.  `rules` is the `extraction_rules` map in its
iteration order. -/
def fieldResults (queryFn : String → List String) (rootQuery : String)
    (rules : List (String × ExtractionRule)) : List (String × List String) :=
  rules.map (fun fr => (fr.1, queryFn (rootQuery ++ " " ++ strippedSelector fr.2.selector)))

/-- `max_len` (`src/spider.rs:144` and `:155`): running maximum of the
per-field result lengths. -/
def maxLen (frs : List (String × List String)) : Nat :=
  frs.foldl (fun m fr => max m fr.2.length) 0

/-- The alignment loop (`src/spider.rs:165-175`): for each index
`i < max_len`, build an item holding, for every field, the element of that
field's sequence at `i` when it exists; push the item only if it is
non-empty. -/
def alignItems (frs : List (String × List String)) : List Item :=
  ((List.range (maxLen frs)).map
      (fun i => frs.filterMap (fun fr => (fr.2[i]?).map (fun v => (fr.1, v))))).filter
    (· ≠ [])

/-! ## Metrics collector (`src/metrics/collector.rs`) -/

/-- The counters of `struct MetricsCollector` (`src/metrics/collector.rs:9-22`);
each `AtomicU64` is modelled as a `Nat`.  The `start_time` is factored out:
`snapshot` receives the elapsed time as a parameter. -/
structure MetricsState where
  urls_queued : Nat
  urls_processed : Nat
  urls_pending : Nat
  items_extracted : Nat
  items_processed : Nat
  items_failed : Nat
  requests_total : Nat
  requests_success : Nat
  requests_failed : Nat
  active_workers : Nat
  total_response_time_ms : Nat
deriving Repr, DecidableEq

/-- `MetricsCollector::default` (`src/metrics/collector.rs:24-41`): every
counter starts at zero. -/
def MetricsState.init : MetricsState :=
  ⟨0, 0, 0, 0, 0, 0, 0, 0, 0, 0, 0⟩

/-- `increment_items_processed` (`src/metrics/collector.rs:60-62`). -/
def increment_items_processed (st : MetricsState) : MetricsState :=
  { st with items_processed := st.items_processed + 1 }

/-- `increment_items_failed` (`src/metrics/collector.rs:64-66`). -/
def increment_items_failed (st : MetricsState) : MetricsState :=
  { st with items_failed := st.items_failed + 1 }

/-- `record_success` (`src/metrics/collector.rs:76-81`): one more total
request, one more successful request, and the duration (in ms) added to the
accumulated response time. -/
def record_success (st : MetricsState) (durMs : Nat) : MetricsState :=
  { st with
    requests_total := st.requests_total + 1
    requests_success := st.requests_success + 1
    total_response_time_ms := st.total_response_time_ms + durMs }

/-- `record_failure` (`src/metrics/collector.rs:83-88`). -/
def record_failure (st : MetricsState) (durMs : Nat) : MetricsState :=
  { st with
    requests_total := st.requests_total + 1
    requests_failed := st.requests_failed + 1
    total_response_time_ms := st.total_response_time_ms + durMs }

/-- The derived part of `struct MetricsSnapshot` (`src/metrics/snapshot.rs`)
that the claims concern; `f64` values are modelled as `ℚ` and the `u64`
average as `Nat`. -/
structure MetricsSnapshot where
  requests_total : Nat
  requests_success : Nat
  requests_failed : Nat
  success_rate : ℚ
  avg_response_time_ms : Nat
  requests_per_second : ℚ
  elapsed_seconds : ℚ
deriving Repr, DecidableEq

/-- Embeds `MetricsCollector::snapshot` (`src/metrics/collector.rs:90-130`):
`success_rate = success / total * 100` when `total > 0`, else `0`;
`avg_response_time_ms = total_time / total` (integer division) when
`total > 0`, else `0`; `requests_per_second = total / elapsed` when
`elapsed > 0`, else `0`. -/
def snapshot (st : MetricsState) (elapsed : ℚ) : MetricsSnapshot :=
  { requests_total := st.requests_total
    requests_success := st.requests_success
    requests_failed := st.requests_failed
    success_rate :=
      if st.requests_total > 0 then
        ((st.requests_success : ℚ) / (st.requests_total : ℚ)) * 100
      else 0
    avg_response_time_ms :=
      if st.requests_total > 0 then
        st.total_response_time_ms / st.requests_total
      else 0
    requests_per_second :=
      if elapsed > 0 then (st.requests_total : ℚ) / elapsed else 0
    elapsed_seconds := elapsed }

/-- One request-level event observed by the scraper stage
(`src/crawler.rs:106-120`): a timed success or a timed failure. -/
inductive RequestEvent where
  | success (durMs : Nat)
  | failure (durMs : Nat)
deriving Repr, DecidableEq

/-- Applying one request event to the collector. -/
def applyEvent (st : MetricsState) : RequestEvent → MetricsState
  | .success d => record_success st d
  | .failure d => record_failure st d

/-- Applying a sequence of request events in order. -/
def applyEvents (st : MetricsState) (evs : List RequestEvent) : MetricsState :=
  evs.foldl applyEvent st

/-- The number of success events in a sequence. -/
def successCount (evs : List RequestEvent) : Nat :=
  (evs.filter (fun e => match e with | .success _ => true | .failure _ => false)).length

/-- The number of failure events in a sequence. -/
def failureCount (evs : List RequestEvent) : Nat :=
  (evs.filter (fun e => match e with | .success _ => false | .failure _ => true)).length

/-! ## Crawler engine (`src/crawler.rs`) -/

/-- Embeds `enum CrawlerState` (`src/crawler.rs:10-16`). -/
inductive CrawlerState where
  | Idle
  | Running
  | Paused
  | Stopped
deriving Repr, DecidableEq

/-- The value the state cell holds at construction
(`src/crawler.rs:34`). -/
def initialCrawlerState : CrawlerState := .Idle

/-- The sequence of values written to the state cell by one execution of
`CrawlerEngine::run` (`src/crawler.rs:39-146`), the only writer of the
cell: `Running` at entry (line 40); when the external interrupt wins the
`select!`, `Stopped` (line 138); then in either case `Stopped` at the end
(line 145).  `interrupted` records which `select!` branch won. -/
def runStateWrites (interrupted : Bool) : List CrawlerState :=
  if interrupted then [.Running, .Stopped, .Stopped] else [.Running, .Stopped]

/-- The states the cell passes through during `run`: its initial value
followed by every written value. -/
def runStatesSeen (interrupted : Bool) : List CrawlerState :=
  initialCrawlerState :: runStateWrites interrupted

/-- Collapses consecutive duplicates, leaving the sequence of distinct
states traversed (a write of the value already held is not a state
change). -/
def stateChanges : List CrawlerState → List CrawlerState
  | [] => []
  | [s] => [s]
  | s :: t :: rest =>
      if s = t then stateChanges (t :: rest) else s :: stateChanges (t :: rest)

/-- The processor task body for one drained item (`src/crawler.rs:70-76`):
`items_processed` is incremented first, unconditionally; then
`spider.process(item)` runs and, if it returned an error, `items_failed`
is incremented as well.  The item is represented by the outcome of its
`process` call. -/
def processorStep (st : MetricsState) (outcome : Except Error Unit) : MetricsState :=
  let st := increment_items_processed st
  match outcome with
  | .ok _ => st
  | .error _ => increment_items_failed st

/-- The whole processing stage (`src/crawler.rs:68-80`): `for_each` over
every drained item — the fold consumes the entire sequence, so an item
whose `process` call failed never stops the stage. -/
def processorRun (st : MetricsState) (outcomes : List (Except Error Unit)) : MetricsState :=
  outcomes.foldl processorStep st

/-! ## CSV output sink (`src/output/csv.rs`) -/

/-- A `serde_json::Value` as far as `CsvOutput::write` inspects it. -/
inductive JsonValue where
  | str (s : String)
  | num (n : Int)
  | boolean (b : Bool)
  | null
  | object (fields : List (String × JsonValue))
  | arr (elems : List JsonValue)
deriving Repr

mutual

/-- `Value::to_string()` — the JSON text of a value (string escaping elided;
no claim inspects the rendered text of a non-string value). -/
def jsonText : JsonValue → String
  | .str s => "\"" ++ s ++ "\""
  | .num n => toString n
  | .boolean b => if b then "true" else "false"
  | .null => "null"
  | .object fs => "\x7b" ++ jsonTextFields fs ++ "\x7d"
  | .arr es => "[" ++ jsonTextElems es ++ "]"

def jsonTextFields : List (String × JsonValue) → String
  | [] => ""
  | [kv] => "\"" ++ kv.1 ++ "\":" ++ jsonText kv.2
  | kv :: rest => "\"" ++ kv.1 ++ "\":" ++ jsonText kv.2 ++ "," ++ jsonTextFields rest

def jsonTextElems : List JsonValue → String
  | [] => ""
  | [v] => jsonText v
  | v :: rest => jsonText v ++ "," ++ jsonTextElems rest

end

/-- The per-value rendering of `CsvOutput::write` (`src/output/csv.rs:35-38`):
a JSON string becomes its content, anything else its JSON text. -/
def csvField : JsonValue → String
  | .str s => s
  | v => jsonText v

/-- The state of a `csv::Writer` in the default configuration produced by
`csv::Writer::from_path` (`src/output/csv.rs:14`): the records written so
far.  The default configuration is non-flexible: per the `csv` crate's
documented contract, `write_record` returns an `UnequalLengths` error when
a record's field count differs from that of the first record written. -/
structure CsvWriter where
  records : List (List String)
deriving Repr, DecidableEq

/-- `csv::Writer::write_record` under the default (non-flexible)
configuration; the error is already mapped through
`Error::Internal(e.to_string())` as at `src/output/csv.rs:31` and `:41`
(the crate's message text is abbreviated, immaterial to the claims). -/
def write_record (w : CsvWriter) (rec : List String) : Except Error CsvWriter :=
  match w.records with
  | [] => .ok ⟨[rec]⟩
  | first :: _ =>
      if rec.length = first.length then .ok ⟨w.records ++ [rec]⟩
      else .error (.Internal "CSV error: unequal lengths")

/-- Embeds `struct CsvOutput` (`src/output/csv.rs:7-10`). -/
structure CsvOutput where
  writer : CsvWriter
  headers_written : Bool
deriving Repr, DecidableEq

/-- `CsvOutput::new` (`src/output/csv.rs:13-21`): fresh writer, headers not
yet written. -/
def CsvOutput.new : CsvOutput :=
  ⟨⟨[]⟩, false⟩

/-- Embeds `CsvOutput::write` (`src/output/csv.rs:26-44`).  A non-object
value falls through the `if let` and returns `Ok` untouched.  For an
object: when `headers_written` is still false, the item's keys are written
as the header record and the flag is set; then the item's values — in that
item's own key order, rendered by `csvField` — are written as a record.
The keys are never compared against the header. -/
def CsvOutput.write (o : CsvOutput) (item : JsonValue) : Except Error CsvOutput :=
  match item with
  | .object map =>
      let afterHeader : Except Error CsvOutput :=
        if o.headers_written then .ok o
        else
          match write_record o.writer (map.map (fun kv => kv.1)) with
          | .ok w => .ok ⟨w, true⟩
          | .error e => .error e
      match afterHeader with
      | .error e => .error e
      | .ok o1 =>
          match write_record o1.writer (map.map (fun kv => csvField kv.2)) with
          | .ok w => .ok ⟨w, o1.headers_written⟩
          | .error e => .error e
  | _ => .ok o

/-- Whether a `serde_json::Value` is an object (the `Value::Object` arm of
the `if let` at `src/output/csv.rs:27`). -/
def JsonValue.isObject : JsonValue → Bool
  | .object _ => true
  | _ => false

/-! ## Theorems settling the claims -/

/-- The ancestor walk succeeds exactly when the parent chain splits as
`pre ++ q :: post` with the selector matching `q` (whose own ancestor chain
is `post`). -/
theorem ancestorMatch_iff (a : CssSelector) (anc : List NodeData) :
    ancestorMatch a anc = true ↔
      ∃ pre q post, anc = pre ++ q :: post ∧ selMatches a q post = true := by
  induction anc with
  | nil =>
      simp [ancestorMatch]
  | cons p rest ih =>
      rw [ancestorMatch, Bool.or_eq_true, ih]
      constructor
      · rintro (h | ⟨pre, q, post, rfl, hq⟩)
        · exact ⟨[], p, rest, rfl, h⟩
        · exact ⟨p :: pre, q, post, rfl, hq⟩
      · rintro ⟨pre, q, post, heq, hq⟩
        cases pre with
        | nil =>
            simp only [List.nil_append, List.cons.injEq] at heq
            exact Or.inl (heq.1 ▸ heq.2 ▸ hq)
        | cons x xs =>
            simp only [List.cons_append, List.cons.injEq] at heq
            exact Or.inr ⟨xs, q, post, heq.2, hq⟩

/-- C6: a `Descendant` selector matches a node exactly when the
descendant-predicate matches the node and the ancestor-predicate matches
some node of the strict ancestor chain (an element of `anc` — the walk
starts at the parent, so the node itself is never its own ancestor); a
`Child` selector matches exactly when the child-predicate matches the node
and the parent-predicate matches the immediate parent — the chain must be
non-empty and only its head is consulted, so a grandparent-only match
fails. -/
theorem C6_descendant_child (a d p c : CssSelector) (n : NodeData)
    (anc : List NodeData) :
    (selMatches (.Descendant a d) n anc = true ↔
      (selMatches d n anc = true ∧
        ∃ pre q post, anc = pre ++ q :: post ∧ selMatches a q post = true)) ∧
    (selMatches (.Child p c) n anc = true ↔
      (selMatches c n anc = true ∧
        ∃ q post, anc = q :: post ∧ selMatches p q post = true)) := by
  constructor
  · rw [selMatches.eq_def]
    simp only [Bool.and_eq_true, ancestorMatch_iff]
  · rw [selMatches.eq_def]
    simp only [Bool.and_eq_true]
    cases anc with
    | nil => simp
    | cons q post =>
        simp only [List.cons.injEq]
        constructor
        · rintro ⟨hc, hq⟩
          exact ⟨hc, q, post, ⟨rfl, rfl⟩, hq⟩
        · rintro ⟨hc, q2, post2, ⟨rfl, rfl⟩, hq⟩
          exact ⟨hc, hq⟩

/-- C7: for every node, an `And` selector over the empty list of
sub-selectors matches (vacuously true) and an `Or` selector over the empty
list does not match (vacuously false). -/
theorem C7_empty_and_or (n : NodeData) (anc : List NodeData) :
    selMatches (.And []) n anc = true ∧ selMatches (.Or []) n anc = false := by
  constructor <;> simp [selMatches, selMatchesAll, selMatchesAny]

/-- C8: the crawler state cell starts at `Idle` and, in every execution of
`run` (interrupted or not), the sequence of distinct states traversed is
exactly `Idle`, `Running`, `Stopped`; `Paused` is never entered. -/
theorem C8_state_machine (interrupted : Bool) :
    stateChanges (runStatesSeen interrupted) =
      [CrawlerState.Idle, CrawlerState.Running, CrawlerState.Stopped] ∧
    CrawlerState.Paused ∉ runStatesSeen interrupted := by
  cases interrupted <;> exact ⟨by decide, by decide⟩

/-- Rust `contains(':')` holds exactly when a colon occurs anywhere in the
string. -/
theorem containsColon_iff (s : String) : containsColon s = true ↔ ':' ∈ s.data := by
  simp [containsColon, List.contains]

/-- Characters before the first colon are skipped: on `pre ++ ':' :: t`
with no colon in `pre`, the `split_once` helper returns `t`. -/
theorem afterColonAux_append (pre t : List Char) (h : ':' ∉ pre) :
    afterColonAux (pre ++ ':' :: t) = some t := by
  induction pre with
  | nil => simp [afterColonAux]
  | cons c cs ih =>
      have hc : ¬ c = ':' := fun hc => h (hc ▸ List.mem_cons_self c cs)
      simp only [List.cons_append, afterColonAux, if_neg hc]
      exact ih (fun hm => h (List.mem_cons_of_mem c hm))

/-- Without a colon, the `split_once` helper finds nothing. -/
theorem afterColonAux_of_not_mem (l : List Char) (h : ':' ∉ l) :
    afterColonAux l = none := by
  induction l with
  | nil => rfl
  | cons c cs ih =>
      have hc : ¬ c = ':' := fun hc => h (hc ▸ List.mem_cons_self c cs)
      simp only [afterColonAux, if_neg hc]
      exact ih (fun hm => h (List.mem_cons_of_mem c hm))

/-- C9: the default `css:` tag is prepended exactly when the selector
string contains no colon anywhere — a colon in any position (not only a
leading language tag) suppresses it — and in root mode everything up to
and including the first colon of a rule's selector is stripped before the
concatenation with the root query.  In particular the pseudo-class
selector `a:hover` passes through untagged in single-item mode, while in
root mode the text before its colon is discarded and only `hover` is
concatenated. -/
theorem C9_selector_tagging :
    (∀ s : String, ':' ∈ s.data → toQuery s = s) ∧
    (∀ s : String, ':' ∉ s.data → toQuery s = "css:" ++ s) ∧
    (∀ pre post : List Char, ':' ∉ pre →
      strippedSelector (String.mk (pre ++ ':' :: post)) = String.mk post) ∧
    (∀ s : String, ':' ∉ s.data → strippedSelector s = s) ∧
    (∀ (queryFn : String → List String) (rootQuery f : String),
      fieldResults queryFn rootQuery [(f, ⟨"a:hover", .Text⟩)] =
        [(f, queryFn (rootQuery ++ " hover"))]) ∧
    toQuery "a:hover" = "a:hover" := by
  refine ⟨?_, ?_, ?_, ?_, ?_, ?_⟩
  · intro s hs
    rw [toQuery, if_pos ((containsColon_iff s).mpr hs)]
  · intro s hs
    rw [toQuery, if_neg (fun hc => hs ((containsColon_iff s).mp hc))]
  · intro pre post h
    simp [strippedSelector, afterColon, afterColonAux_append pre post h]
  · intro s hs
    simp [strippedSelector, afterColon, afterColonAux_of_not_mem s.data hs]
  · intro queryFn rootQuery f
    have hstr : strippedSelector "a:hover" = "hover" := rfl
    simp only [fieldResults, List.map_cons, List.map_nil, hstr]
    rw [String.append_assoc]
    have hsp : (" " ++ "hover" : String) = " hover" := rfl
    rw [hsp]
  · rfl

/-- Witness for C9: the selector `a:hover` contains a colon, so the
single-item query passes it through without the `css:` tag. -/
theorem C9_selector_tagging_witness :
    ':' ∈ ("a:hover" : String).data ∧ toQuery "a:hover" = "a:hover" :=
  ⟨by decide, C9_selector_tagging.1 "a:hover" (by decide)⟩

/-- Folding the running maximum from an arbitrary start value. -/
theorem maxLen_foldl (frs : List (String × List String)) (m : Nat) :
    frs.foldl (fun acc fr => max acc fr.2.length) m = max m (maxLen frs) := by
  induction frs generalizing m with
  | nil => simp [maxLen]
  | cons fr rest ih =>
      simp only [maxLen, List.foldl_cons]
      rw [ih (max m fr.2.length), ih (max 0 fr.2.length), Nat.zero_max,
        Nat.max_assoc]

/-- `max_len` over a non-empty field list, one step. -/
theorem maxLen_cons (fr : String × List String) (frs : List (String × List String)) :
    maxLen (fr :: frs) = max fr.2.length (maxLen frs) := by
  simp only [maxLen, List.foldl_cons]
  rw [maxLen_foldl, Nat.zero_max]
  rfl

/-- Every field's sequence length is bounded by `max_len`. -/
theorem le_maxLen {frs : List (String × List String)} {fr : String × List String}
    (h : fr ∈ frs) : fr.2.length ≤ maxLen frs := by
  induction frs with
  | nil => cases h
  | cons g rest ih =>
      rw [maxLen_cons]
      rcases List.mem_cons.mp h with rfl | hm
      · exact Nat.le_max_left _ _
      · exact (ih hm).trans (Nat.le_max_right _ _)

/-- A positive `max_len` is attained by some field. -/
theorem exists_maxLen {frs : List (String × List String)} (h : 0 < maxLen frs) :
    ∃ fr ∈ frs, fr.2.length = maxLen frs := by
  induction frs with
  | nil => simp [maxLen] at h
  | cons g rest ih =>
      rw [maxLen_cons] at h ⊢
      by_cases hle : maxLen rest ≤ g.2.length
      · exact ⟨g, List.mem_cons_self g rest, (Nat.max_eq_left hle).symm⟩
      · obtain ⟨fr, hm, he⟩ := ih (by omega)
        exact ⟨fr, List.mem_cons_of_mem _ hm,
          by rw [Nat.max_eq_right (Nat.le_of_not_le hle), he]⟩

/-- For every index below `max_len`, the aligned item is non-empty: the
field attaining `max_len` contributes an element. -/
theorem alignRow_ne_nil (frs : List (String × List String)) (i : Nat)
    (hi : i < maxLen frs) :
    frs.filterMap (fun fr => (fr.2[i]?).map (fun v => (fr.1, v))) ≠ [] := by
  obtain ⟨fr, hm, he⟩ := exists_maxLen ((Nat.zero_le i).trans_lt hi)
  have hilen : i < fr.2.length := he ▸ hi
  intro hnil
  have hmem : (fr.1, fr.2.get ⟨i, hilen⟩) ∈
      frs.filterMap (fun fr => (fr.2[i]?).map (fun v => (fr.1, v))) := by
    refine List.mem_filterMap.mpr ⟨fr, hm, ?_⟩
    rw [List.getElem?_eq_getElem hilen]
    rfl
  rw [hnil] at hmem
  cases hmem

/-- The final `if !item.is_empty()` filter of the alignment loop never
drops anything: the produced items are exactly one per index in
`[0, max_len)`. -/
theorem alignItems_eq (frs : List (String × List String)) :
    alignItems frs = (List.range (maxLen frs)).map
      (fun i => frs.filterMap (fun fr => (fr.2[i]?).map (fun v => (fr.1, v)))) := by
  rw [alignItems]
  apply List.filter_eq_self.mpr
  intro it hit
  obtain ⟨i, hi, rfl⟩ := List.mem_map.mp hit
  simpa using alignRow_ne_nil frs i (List.mem_range.mp hi)

/-- C4: in root-selector mode, with per-rule ordered result sequences
`frs` (distinct field names, as in the source's `HashMap`), alignment
produces exactly `max_len` items; the item at index `i` carries a rule's
field exactly when that rule's sequence has an element at `i` (and then
with that element as the value) — the zero-field drop never fires, and for
sequences of lengths 3 and 2 the third item lacks the second field (see
the witness). -/
theorem C4_alignment (frs : List (String × List String))
    (hnd : (frs.map Prod.fst).Nodup) :
    (alignItems frs).length = maxLen frs ∧
    (∀ i it, (alignItems frs)[i]? = some it →
      ∀ fr ∈ frs,
        ((∃ v, (fr.1, v) ∈ it) ↔ i < fr.2.length) ∧
        (∀ v, ((fr.1, v) ∈ it ↔ fr.2[i]? = some v))) := by
  constructor
  · rw [alignItems_eq, List.length_map, List.length_range]
  · intro i it hit fr hfr
    rw [alignItems_eq] at hit
    have hi : i < maxLen frs := by
      by_contra hge
      rw [List.getElem?_eq_none (by simpa using Nat.le_of_not_lt hge)] at hit
      cases hit
    have hit2 : it = frs.filterMap (fun fr2 => (fr2.2[i]?).map (fun v => (fr2.1, v))) := by
      rw [List.getElem?_map, List.getElem?_range hi, Option.map_some'] at hit
      exact (Option.some.inj hit).symm
    have hinj := List.inj_on_of_nodup_map hnd
    subst hit2
    constructor
    · constructor
      · rintro ⟨v, hv⟩
        obtain ⟨fr2, hfr2, hmap⟩ := List.mem_filterMap.mp hv
        obtain ⟨w, hw, hpair⟩ := Option.map_eq_some'.mp hmap
        simp only [Prod.mk.injEq] at hpair
        have heq : fr2 = fr := hinj hfr2 hfr hpair.1
        subst heq
        obtain ⟨hlt, -⟩ := List.getElem?_eq_some.mp hw
        exact hlt
      · intro hlt
        refine ⟨fr.2.get ⟨i, hlt⟩, List.mem_filterMap.mpr ⟨fr, hfr, ?_⟩⟩
        rw [List.getElem?_eq_getElem hlt]
        rfl
    · intro v
      constructor
      · intro hv
        obtain ⟨fr2, hfr2, hmap⟩ := List.mem_filterMap.mp hv
        obtain ⟨w, hw, hpair⟩ := Option.map_eq_some'.mp hmap
        simp only [Prod.mk.injEq] at hpair
        have heq : fr2 = fr := hinj hfr2 hfr hpair.1
        subst heq
        rwa [hpair.2] at hw
      · intro hv
        refine List.mem_filterMap.mpr ⟨fr, hfr, ?_⟩
        rw [hv]
        rfl

/-- Witness for C4, on the claim's own "in particular" instance: two rules
with sequences of lengths 3 and 2 produce exactly 3 items, the third
lacking the second field's key. -/
theorem C4_alignment_witness :
    (([("title", ["x", "y", "z"]), ("price", ["u", "v"])].map Prod.fst).Nodup) ∧
    (alignItems [("title", ["x", "y", "z"]), ("price", ["u", "v"])]).length =
      maxLen [("title", ["x", "y", "z"]), ("price", ["u", "v"])] ∧
    alignItems [("title", ["x", "y", "z"]), ("price", ["u", "v"])] =
      [[("title", "x"), ("price", "u")],
       [("title", "y"), ("price", "v")],
       [("title", "z")]] :=
  ⟨by decide,
   (C4_alignment [("title", ["x", "y", "z"]), ("price", ["u", "v"])] (by decide)).1,
   by decide⟩

/-- C2 counterexample: for an item whose `process` call fails, the claim
predicts `items_processed` stays 0 and only `items_failed` becomes 1; the
code increments both (`src/crawler.rs:71` runs before the error check). -/
theorem C2_counterexample :
    (processorRun MetricsState.init [.error (.Internal "disk full")]).items_processed = 1 ∧
    (processorRun MetricsState.init [.error (.Internal "disk full")]).items_failed = 1 := by
  exact ⟨rfl, rfl⟩

/-- C2 amended: for every drained item `items_processed` is incremented
unconditionally — it counts every drained item, not just the successful
ones — and `items_failed` is additionally incremented exactly for the items
whose `process` call returned a write error; the stage consumes the entire
queue, so a write error never aborts it. -/
theorem C2_processor_counts (st : MetricsState) (outcomes : List (Except Error Unit)) :
    (processorRun st outcomes).items_processed = st.items_processed + outcomes.length ∧
    (processorRun st outcomes).items_failed =
      st.items_failed +
        (outcomes.filter (fun o => match o with | .ok _ => false | .error _ => true)).length := by
  induction outcomes generalizing st with
  | nil => simp [processorRun]
  | cons o rest ih =>
      cases o with
      | ok u =>
          have h := ih (processorStep st (.ok u))
          simpa [processorRun, processorStep, increment_items_processed,
            Nat.add_assoc, Nat.add_comm, Nat.add_left_comm] using h
      | error e =>
          have h := ih (processorStep st (.error e))
          simpa [processorRun, processorStep, increment_items_processed,
            increment_items_failed, Nat.add_assoc, Nat.add_comm,
            Nat.add_left_comm] using h

/-- One more success event bumps the success count. -/
theorem successCount_cons_s (d : Nat) (rest : List RequestEvent) :
    successCount (RequestEvent.success d :: rest) = successCount rest + 1 := by
  simp [successCount]

/-- A failure event leaves the success count unchanged. -/
theorem successCount_cons_f (d : Nat) (rest : List RequestEvent) :
    successCount (RequestEvent.failure d :: rest) = successCount rest := by
  simp [successCount]

/-- A success event leaves the failure count unchanged. -/
theorem failureCount_cons_s (d : Nat) (rest : List RequestEvent) :
    failureCount (RequestEvent.success d :: rest) = failureCount rest := by
  simp [failureCount]

/-- One more failure event bumps the failure count. -/
theorem failureCount_cons_f (d : Nat) (rest : List RequestEvent) :
    failureCount (RequestEvent.failure d :: rest) = failureCount rest + 1 := by
  simp [failureCount]

/-- Folding request events over the collector adds the success count to
`requests_success`, the failure count to `requests_failed`, and their sum
to `requests_total`. -/
theorem applyEvents_counters (evs : List RequestEvent) (st : MetricsState) :
    (applyEvents st evs).requests_total =
      st.requests_total + (successCount evs + failureCount evs) ∧
    (applyEvents st evs).requests_success = st.requests_success + successCount evs ∧
    (applyEvents st evs).requests_failed = st.requests_failed + failureCount evs := by
  induction evs generalizing st with
  | nil => simp [applyEvents, successCount, failureCount]
  | cons e rest ih =>
      cases e with
      | success d =>
          have hstep : applyEvents st (RequestEvent.success d :: rest) =
              applyEvents (record_success st d) rest := by
            simp [applyEvents, applyEvent]
          obtain ⟨h1, h2, h3⟩ := ih (record_success st d)
          rw [hstep, h1, h2, h3, successCount_cons_s, failureCount_cons_s]
          simp [record_success]
          omega
      | failure d =>
          have hstep : applyEvents st (RequestEvent.failure d :: rest) =
              applyEvents (record_failure st d) rest := by
            simp [applyEvents, applyEvent]
          obtain ⟨h1, h2, h3⟩ := ih (record_failure st d)
          rw [hstep, h1, h2, h3, successCount_cons_f, failureCount_cons_f]
          simp [record_failure]
          omega

/-- The counters after folding events over the zero-initialised
collector. -/
theorem applyEvents_init_counters (evs : List RequestEvent) :
    (applyEvents MetricsState.init evs).requests_total =
      successCount evs + failureCount evs ∧
    (applyEvents MetricsState.init evs).requests_success = successCount evs ∧
    (applyEvents MetricsState.init evs).requests_failed = failureCount evs := by
  obtain ⟨h1, h2, h3⟩ := applyEvents_counters evs MetricsState.init
  refine ⟨?_, ?_, ?_⟩
  · rw [h1]
    exact Nat.zero_add _
  · rw [h2]
    exact Nat.zero_add _
  · rw [h3]
    exact Nat.zero_add _

/-- C5: after any sequence of recorded successes and failures (S of one, F
of the other), the snapshot's counters are S, F and S+F; `success_rate` is
`success/total*100` (0 when total is 0), `avg_response_time_ms` is the
integer quotient `total_time/total` (0 when total is 0), and
`requests_per_second` is `total/elapsed` (0 when elapsed is 0); in
particular `success_rate = 100*S/(S+F)` when S+F > 0, and the average
latency is 0 when S+F = 0. -/
theorem C5_snapshot_rates (evs : List RequestEvent) (elapsed : ℚ) :
    ((applyEvents MetricsState.init evs).requests_total =
        successCount evs + failureCount evs ∧
      (applyEvents MetricsState.init evs).requests_success = successCount evs ∧
      (applyEvents MetricsState.init evs).requests_failed = failureCount evs) ∧
    (0 < (applyEvents MetricsState.init evs).requests_total →
      (snapshot (applyEvents MetricsState.init evs) elapsed).success_rate =
        ((applyEvents MetricsState.init evs).requests_success : ℚ) /
          ((applyEvents MetricsState.init evs).requests_total : ℚ) * 100 ∧
      (snapshot (applyEvents MetricsState.init evs) elapsed).avg_response_time_ms =
        (applyEvents MetricsState.init evs).total_response_time_ms /
          (applyEvents MetricsState.init evs).requests_total) ∧
    ((applyEvents MetricsState.init evs).requests_total = 0 →
      (snapshot (applyEvents MetricsState.init evs) elapsed).success_rate = 0 ∧
      (snapshot (applyEvents MetricsState.init evs) elapsed).avg_response_time_ms = 0) ∧
    (0 < elapsed →
      (snapshot (applyEvents MetricsState.init evs) elapsed).requests_per_second =
        ((applyEvents MetricsState.init evs).requests_total : ℚ) / elapsed) ∧
    (elapsed = 0 →
      (snapshot (applyEvents MetricsState.init evs) elapsed).requests_per_second = 0) ∧
    (successCount evs + failureCount evs ≠ 0 →
      (snapshot (applyEvents MetricsState.init evs) elapsed).success_rate =
        100 * (successCount evs : ℚ) /
          ((successCount evs : ℚ) + (failureCount evs : ℚ))) ∧
    (successCount evs + failureCount evs = 0 →
      (snapshot (applyEvents MetricsState.init evs) elapsed).avg_response_time_ms = 0) := by
  obtain ⟨h1, h2, h3⟩ := applyEvents_init_counters evs
  refine ⟨⟨h1, h2, h3⟩, ?_, ?_, ?_, ?_, ?_, ?_⟩
  · intro hpos
    constructor <;> simp [snapshot, hpos]
  · intro hzero
    constructor <;> simp [snapshot, hzero]
  · intro hpos
    simp [snapshot, hpos]
  · intro hzero
    simp [snapshot, hzero]
  · intro hne
    have hpos : 0 < (applyEvents MetricsState.init evs).requests_total := by omega
    simp only [snapshot, if_pos hpos]
    rw [h1, h2]
    push_cast
    ring
  · intro hzero
    have hz : (applyEvents MetricsState.init evs).requests_total = 0 := by omega
    simp [snapshot, hz]

/-- Witness for C5: one success of 10ms and one failure of 30ms over two
elapsed seconds; with S+F = 2 ≠ 0 the snapshot's success rate is
`100*1/(1+1)`. -/
theorem C5_snapshot_rates_witness :
    successCount [RequestEvent.success 10, RequestEvent.failure 30] +
        failureCount [RequestEvent.success 10, RequestEvent.failure 30] ≠ 0 ∧
    (snapshot (applyEvents MetricsState.init
        [RequestEvent.success 10, RequestEvent.failure 30]) 2).success_rate =
      100 * (successCount [RequestEvent.success 10, RequestEvent.failure 30] : ℚ) /
        ((successCount [RequestEvent.success 10, RequestEvent.failure 30] : ℚ) +
          (failureCount [RequestEvent.success 10, RequestEvent.failure 30] : ℚ)) :=
  ⟨by decide,
   (C5_snapshot_rates [RequestEvent.success 10, RequestEvent.failure 30] 2).2.2.2.2.2.1
     (by decide)⟩

/-- C3 counterexample: a non-success HTTP status makes `scrape` fail with
`Error::Internal("HTTP error: ...")` (`src/spider.rs:120`), not with the
`Fetch` variant the claim requires. -/
theorem C3_counterexample :
    scrapeFetch (.response 404 "") = .error (.Internal (httpErrorMsg 404)) ∧
    Error.isFetch (.Internal (httpErrorMsg 404)) = false := by
  exact ⟨rfl, rfl⟩

/-- C3 amended: `scrape` issues exactly one fetch attempt (the result
depends only on the first attempt's outcome and the attempt count is 1 —
no retry); it fails whenever the transport fails or the response status is
not 2xx.  A transport failure yields the `Fetch` variant (conversion
modelled from the spec, see `reqwestError`), but a non-success status
yields the catch-all `Internal("HTTP error: ...")`. -/
theorem C3_single_fetch (attempts : Nat → FetchOutcome) :
    (scrapeFetchOn attempts).2 = 1 ∧
    (∀ g : Nat → FetchOutcome, g 0 = attempts 0 → scrapeFetchOn g = scrapeFetchOn attempts) ∧
    (∀ msg, attempts 0 = .transportFail msg →
      (scrapeFetchOn attempts).1 = .error (.Fetch msg)) ∧
    (∀ status body, attempts 0 = .response status body →
      (isSuccessStatus status = false →
        (scrapeFetchOn attempts).1 = .error (.Internal (httpErrorMsg status))) ∧
      (isSuccessStatus status = true → (scrapeFetchOn attempts).1 = .ok body)) := by
  refine ⟨rfl, ?_, ?_, ?_⟩
  · intro g hg
    simp [scrapeFetchOn, hg]
  · intro msg h
    simp [scrapeFetchOn, h, scrapeFetch, reqwestError]
  · intro status body h
    constructor <;> intro hs <;> simp [scrapeFetchOn, h, scrapeFetch, hs]

/-- Witness for C3: a transport that refuses the connection on every
attempt; the single fetch attempt fails with the `Fetch` variant. -/
theorem C3_single_fetch_witness :
    (fun _ : Nat => FetchOutcome.transportFail "connection refused") 0 =
      FetchOutcome.transportFail "connection refused" ∧
    (scrapeFetchOn (fun _ => FetchOutcome.transportFail "connection refused")).1 =
      .error (.Fetch "connection refused") :=
  ⟨rfl, (C3_single_fetch (fun _ => FetchOutcome.transportFail "connection refused")).2.2.1
    "connection refused" rfl⟩

/-- The accumulating fold of `extract_data` builds, after the initial
accumulator, exactly the fields whose query result is non-empty, in rule
order. -/
theorem extract_foldl (sel : String → String) (rules : List (String × ExtractionRule))
    (acc : Item) :
    rules.foldl
        (fun item fr =>
          let val := sel (toQuery fr.2.selector)
          if val ≠ "" then item ++ [(fr.1, val)] else item)
        acc =
      acc ++ rules.filterMap
        (fun fr =>
          let val := sel (toQuery fr.2.selector)
          if val = "" then none else some (fr.1, val)) := by
  induction rules generalizing acc with
  | nil => simp
  | cons fr rest ih =>
      simp only [List.foldl_cons, List.filterMap_cons]
      by_cases h : sel (toQuery fr.2.selector) = ""
      · simpa [h] using ih acc
      · simpa [h, List.append_assoc] using ih (acc ++ [(fr.1, sel (toQuery fr.2.selector))])

/-- `extract_data`, closed form: the collected item is the filterMap of the
rules over non-empty query results; it is returned when non-empty,
otherwise the `Extraction` error is raised. -/
theorem extract_data_eq (sel : String → String) (rules : List (String × ExtractionRule)) :
    extract_data sel rules =
      (if (rules.filterMap
            (fun fr =>
              let val := sel (toQuery fr.2.selector)
              if val = "" then none else some (fr.1, val))) ≠ [] then
        .ok (rules.filterMap
          (fun fr =>
            let val := sel (toQuery fr.2.selector)
            if val = "" then none else some (fr.1, val)))
      else .error (.Extraction "No data found for item")) := by
  rw [extract_data, extract_foldl sel rules []]
  simp

/-- C1 counterexample: in single-item mode with one rule that matches
nothing, `extract_data` does fail with `ExtractionError`, but `scrape`
swallows the error (`if let Ok(item) = ...`, `src/spider.rs:178`) and
returns `Ok` with zero items — the claim says `Spider.scrape` itself fails
with `ExtractionError` rather than succeeding with zero items. -/
theorem C1_counterexample :
    scrapeSingle (.response 200 "<html></html>") (fun _ => "")
        [("title", ⟨"h1", .Text⟩)] = .ok ([], []) ∧
    extract_data (fun _ => "") [("title", ⟨"h1", .Text⟩)] =
      .error (.Extraction "No data found for item") := by
  exact ⟨rfl, rfl⟩

/-- C1 amended: in single-item mode each rule is queried once against the
whole document; when at least one rule's result is non-empty, `scrape`
returns exactly one item whose fields are exactly those of the matching
rules (with their results as values); when every rule's result is empty,
`extract_data` fails with `Error::Extraction("No data found for item")`,
but `scrape` discards that error and succeeds with zero items. -/
theorem C1_single_item_mode (outcome : FetchOutcome) (body : String)
    (hfetch : scrapeFetch outcome = .ok body) (sel : String → String)
    (rules : List (String × ExtractionRule)) :
    ((∃ fr ∈ rules, sel (toQuery fr.2.selector) ≠ "") →
      ∃ item, scrapeSingle outcome sel rules = .ok ([item], []) ∧
        extract_data sel rules = .ok item ∧
        ∀ f v, ((f, v) ∈ item ↔
          ∃ r : ExtractionRule, (f, r) ∈ rules ∧ sel (toQuery r.selector) = v ∧ v ≠ "")) ∧
    ((∀ fr ∈ rules, sel (toQuery fr.2.selector) = "") →
      extract_data sel rules = .error (.Extraction "No data found for item") ∧
      scrapeSingle outcome sel rules = .ok ([], [])) := by
  constructor
  · rintro ⟨fr, hfr, hne⟩
    have hmem : (fr.1, sel (toQuery fr.2.selector)) ∈
        rules.filterMap
          (fun fr =>
            let val := sel (toQuery fr.2.selector)
            if val = "" then none else some (fr.1, val)) :=
      List.mem_filterMap.mpr ⟨fr, hfr, by simp [hne]⟩
    have hnil : rules.filterMap
        (fun fr =>
          let val := sel (toQuery fr.2.selector)
          if val = "" then none else some (fr.1, val)) ≠ [] := by
      intro hn
      rw [hn] at hmem
      cases hmem
    have hed : extract_data sel rules =
        .ok (rules.filterMap
          (fun fr =>
            let val := sel (toQuery fr.2.selector)
            if val = "" then none else some (fr.1, val))) := by
      rw [extract_data_eq, if_pos hnil]
    refine ⟨_, ?_, hed, ?_⟩
    · rw [scrapeSingle, hfetch, hed]
    · intro f v
      constructor
      · intro hv
        obtain ⟨fr2, hfr2, hsome⟩ := List.mem_filterMap.mp hv
        by_cases h2 : sel (toQuery fr2.2.selector) = ""
        · simp [h2] at hsome
        · simp [h2] at hsome
          obtain ⟨hf, hv2⟩ := hsome
          have hfr2e : (f, fr2.2) = fr2 := by
            rw [← hf]
          refine ⟨fr2.2, by rw [hfr2e]; exact hfr2, by rw [hv2], ?_⟩
          rw [← hv2]
          exact h2
      · rintro ⟨r, hr, hval, hvne⟩
        exact List.mem_filterMap.mpr ⟨(f, r), hr, by simp [hval, hvne]⟩
  · intro hall
    have hnil : rules.filterMap
        (fun fr =>
          let val := sel (toQuery fr.2.selector)
          if val = "" then none else some (fr.1, val)) = [] :=
      List.filterMap_eq_nil_iff.mpr (fun fr hfr => by simp [hall fr hfr])
    have hed : extract_data sel rules = .error (.Extraction "No data found for item") := by
      rw [extract_data_eq, hnil]
      simp
    exact ⟨hed, by rw [scrapeSingle, hfetch, hed]⟩

/-- Witness for C1: a successful 200 fetch and a single rule whose query
matches nothing; the extraction step errors while `scrape` succeeds
empty. -/
theorem C1_single_item_mode_witness :
    scrapeFetch (.response 200 "page") = .ok "page" ∧
    (∀ fr ∈ ([("title", ⟨"h1", .Text⟩)] : List (String × ExtractionRule)),
      (fun _ : String => "") (toQuery fr.2.selector) = "") ∧
    (extract_data (fun _ => "") [("title", ⟨"h1", .Text⟩)] =
        .error (.Extraction "No data found for item") ∧
      scrapeSingle (.response 200 "page") (fun _ => "")
        [("title", ⟨"h1", .Text⟩)] = .ok ([], [])) :=
  ⟨rfl, by decide,
    (C1_single_item_mode (.response 200 "page") "page" rfl (fun _ => "")
      [("title", ⟨"h1", .Text⟩)]).2 (by decide)⟩

/-- C10 counterexample: after a first item with two fields fixes a
two-column header, an object item with a single field makes
`CsvOutput::write` fail (the default-configuration `csv::Writer` rejects
the shorter record), so an item whose shape differs from the first CAN
cause `write` to fail. -/
theorem C10_counterexample :
    CsvOutput.write CsvOutput.new (.object [("a", .str "x"), ("b", .str "y")]) =
      .ok ⟨⟨[["a", "b"], ["x", "y"]]⟩, true⟩ ∧
    CsvOutput.write ⟨⟨[["a", "b"], ["x", "y"]]⟩, true⟩ (.object [("c", .str "z")]) =
      .error (.Internal "CSV error: unequal lengths") := by
  exact ⟨rfl, rfl⟩

/-- C10 amended: `CsvOutput::write` returns `Ok` without writing for any
non-object item; the first object item writes the header row from its own
keys and then its values; every later object item writes its values in its
own key order, never comparing its keys against the header — an item with
the same number of fields as the first record succeeds whatever its keys
are, but an item whose field count differs fails with the default
`csv::Writer` unequal-lengths error. -/
theorem C10_csv_write_behavior :
    (∀ (o : CsvOutput) (v : JsonValue), v.isObject = false →
      CsvOutput.write o v = .ok o) ∧
    (∀ map : List (String × JsonValue),
      CsvOutput.write CsvOutput.new (.object map) =
        .ok ⟨⟨[map.map Prod.fst, map.map (fun kv => csvField kv.2)]⟩, true⟩) ∧
    (∀ (first : List String) (rest : List (List String))
        (map : List (String × JsonValue)),
      map.length = first.length →
      CsvOutput.write ⟨⟨first :: rest⟩, true⟩ (.object map) =
        .ok ⟨⟨(first :: rest) ++ [map.map (fun kv => csvField kv.2)]⟩, true⟩) ∧
    (∀ (first : List String) (rest : List (List String))
        (map : List (String × JsonValue)),
      map.length ≠ first.length →
      CsvOutput.write ⟨⟨first :: rest⟩, true⟩ (.object map) =
        .error (.Internal "CSV error: unequal lengths")) := by
  refine ⟨?_, ?_, ?_, ?_⟩
  · intro o v hv
    cases v with
    | object fields => simp [JsonValue.isObject] at hv
    | str s => rfl
    | num n => rfl
    | boolean b => rfl
    | null => rfl
    | arr es => rfl
  · intro map
    simp [CsvOutput.write, CsvOutput.new, write_record]
  · intro first rest map hlen
    simp [CsvOutput.write, write_record, hlen]
  · intro first rest map hlen
    simp [CsvOutput.write, write_record, hlen]

/-- Witness for C10: with a header of two columns already written, a later
two-field item whose keys differ entirely from the header is still written
successfully. -/
theorem C10_csv_write_behavior_witness :
    ([("p", JsonValue.str "1"), ("q", JsonValue.str "2")].length =
      (["a", "b"] : List String).length) ∧
    CsvOutput.write ⟨⟨[["a", "b"], ["x", "y"]]⟩, true⟩
        (.object [("p", .str "1"), ("q", .str "2")]) =
      .ok ⟨⟨(["a", "b"] :: [["x", "y"]]) ++
        [[("p", JsonValue.str "1"), ("q", JsonValue.str "2")].map
          (fun kv => csvField kv.2)]⟩, true⟩ :=
  ⟨rfl, C10_csv_write_behavior.2.2.1 ["a", "b"] [["x", "y"]]
    [("p", .str "1"), ("q", .str "2")] rfl⟩

end Crawler
